import Mathlib

/-!
# NextBus: a shallow embedding of `nextBus.go`

The program resolves a (route label, stop, direction) triple against the Metro Transit
NexTrip API in four sequential HTTP requests and prints the minutes until the next
departure.

Modelling conventions

* A Go `string` is a Lean `String` (the program's strings are arguments and decoded JSON
  text, taken here to be valid UTF-8, on which byte-wise and rune-wise substring search
  agree).
* A Go `error` is its message; `Option String` is an `error` value with `none` for `nil`.
  A function with several results returns a tuple in the same order.
* Everything outside the process (the server's answers, the wall clock) and the library
  tables the code relies on are fields of `Env`.
* The package-level variable `routes`, the requests sent so far and the text written to
  standard output form the explicit state `State`.
-/

namespace NextBus

/-! ## Data model (lines 14-38) -/

structure Route where
  Route_id : String
  Agency_id : Int
  Route_label : String
deriving DecidableEq, Repr

structure RouteDirection where
  Direction_id : Int
  Direction_name : String
deriving DecidableEq, Repr

structure PlaceCode where
  Place_code : String
  Description : String
deriving DecidableEq, Repr

structure Departure where
  Departure_time : Int
deriving DecidableEq, Repr

structure RouteDepartures where
  Departures : List Departure
deriving DecidableEq, Repr

/-- The zero value of `Route`, the initial value of `var selectedRoute Route`. -/
def Route.zero : Route := ⟨"", 0, ""⟩

/-! ## The outside world -/

/-- An HTTP response as far as the program looks at it: the outcome of
`ioutil.ReadAll(resp.Body)`, either the bytes of the body or a read error. -/
structure Response where
  Body : Except String String

/-- What the program reads from outside itself.

* `httpGet url` is the outcome of `http.Get(url)`.
* `unmarshal*` are `json.Unmarshal` at each of the four target types.
* `partialRoutes body old` is what `json.Unmarshal(body, &routes)` leaves in `routes`,
  which held `old`, when it returns an error: the entries decoded before a type error, or
  `old` itself when the text is rejected before any write.
* `now` is the reading of `time.Now()`, in nanoseconds since the Unix epoch.
* `caseTable` is the case mapping of `unicode.ToLower` on runes above `unicode.MaxASCII`. -/
structure Env where
  httpGet : String → Except String Response
  unmarshalRoutes : String → Except String (List Route)
  unmarshalRouteDirections : String → Except String (List RouteDirection)
  unmarshalPlaceCodes : String → Except String (List PlaceCode)
  unmarshalRouteDepartures : String → Except String RouteDepartures
  partialRoutes : String → List Route → List Route
  now : Int
  caseTable : Char → Char

/-- Program state: the package variable `routes` (line 38), the URLs requested with
`http.Get` so far (oldest first) and the text written to standard output. -/
structure State where
  routes : List Route
  requests : List String
  stdout : String
deriving DecidableEq, Repr

/-- State at program start: `routes` is nil, nothing requested, nothing printed. -/
def State.init : State := ⟨[], [], ""⟩

/-- Call `http.Get(url)`: the request is recorded and the world's answer returned. -/
def httpGet (w : Env) (url : String) (s : State) : Except String Response × State :=
  (w.httpGet url, { s with requests := s.requests ++ [url] })

/-! ## Library functions on strings -/

/-- Substring test on character lists: `sub` occurs in `s` at some offset. -/
def hasInfix : List Char → List Char → Bool
  | [], sub => sub.isEmpty
  | c :: cs, sub => sub.isPrefixOf (c :: cs) || hasInfix cs sub

/-- Go `strings.Contains(s, substr)`: `substr` is within `s`. -/
def Contains (s substr : String) : Bool := hasInfix s.data substr.data

/-- Go `unicode.ToLower(r)`: ASCII upper-case letters move by `'a' - 'A'`, other ASCII
runes are unchanged, runes above ASCII go through the case table. -/
def unicodeToLower (caseTable : Char → Char) (r : Char) : Char :=
  if r.toNat ≤ 0x7F then
    if 'A'.toNat ≤ r.toNat ∧ r.toNat ≤ 'Z'.toNat then Char.ofNat (r.toNat + 32) else r
  else caseTable r

/-- Go `strings.ToLower(s)`: every rune mapped to lower case. -/
def ToLower (caseTable : Char → Char) (s : String) : String :=
  ⟨s.data.map (unicodeToLower caseTable)⟩

/-- The formatting of an `int` under the verb `%d`. -/
def fmtD (i : Int) : String := toString i

/-! ## Request URLs -/

/-- The URL of the route catalog (line 99). -/
def routesURL : String := "https://svc.metrotransit.org/nextripv2/routes"

/-- Line 128: `fmt.Sprintf("https://svc.metrotransit.org/nextripv2/directions/%s", route_id)`. -/
def directionsURL (route_id : String) : String :=
  "https://svc.metrotransit.org/nextripv2/directions/" ++ route_id

/-- Line 165: `fmt.Sprintf("https://svc.metrotransit.org/nextripv2/stops/%s/%d", route_id,
direction_id)`. -/
def stopsURL (route_id : String) (direction_id : Int) : String :=
  "https://svc.metrotransit.org/nextripv2/stops/" ++ route_id ++ "/" ++ fmtD direction_id

/-- Line 202: `fmt.Sprintf("https://svc.metrotransit.org/nextripv2/%s/%d/%s", route_id,
direction_id, place_code)`. -/
def departuresURL (route_id : String) (direction_id : Int) (place_code : String) : String :=
  "https://svc.metrotransit.org/nextripv2/" ++ route_id ++ "/" ++ fmtD direction_id ++ "/"
    ++ place_code

/-! ## Argument parsing and the resolver pipeline -/

/-- Lines 49-54. `args` is `os.Args`, program name first. -/
def parseArgs (args : List String) : String × String × String × String :=
  if args.length ≠ 4 then
    ("", "", "", "Not enough arguments. Use: go run nextBus.go [BusRoute] [BusStop] [Direction]")
  else
    (args.getD 1 "", args.getD 2 "", args.getD 3 "", "")

/-- Lines 98-116. `json.Unmarshal(body, &routes)` on line 111 writes into the package
variable: on success `routes` holds the decoded catalog, on an error it holds whatever the
decoder left there. A failed request or a failed read returns before that line. -/
def getRoutes (w : Env) (s : State) : Option String × State :=
  match httpGet w routesURL s with
  | (.error err, s1) => (some err, s1)
  | (.ok resp, s1) =>
    match resp.Body with
    | .error err => (some err, s1)
    | .ok body =>
      match w.unmarshalRoutes body with
      | .error err => (some err, { s1 with routes := w.partialRoutes body s1.routes })
      | .ok rs => (none, { s1 with routes := rs })

/-- Lines 146-151: the scan over the decoded directions. -/
def scanDirections (w : Env) (direction : String) : List RouteDirection → Int × Option String
  | [] => (0, some "Route direction not found")
  | routeDirection :: rest =>
    if Contains (ToLower w.caseTable routeDirection.Direction_name) direction then
      (routeDirection.Direction_id, none)
    else scanDirections w direction rest

/-- Lines 127-152. -/
def getBusDirectionID (w : Env) (route_id direction : String) (s : State) :
    (Int × Option String) × State :=
  match httpGet w (directionsURL route_id) s with
  | (.error err, s1) => ((0, some err), s1)
  | (.ok resp, s1) =>
    match resp.Body with
    | .error err => ((0, some err), s1)
    | .ok body =>
      match w.unmarshalRouteDirections body with
      | .error err => ((0, some err), s1)
      | .ok routeDirections => (scanDirections w direction routeDirections, s1)

/-- Lines 183-188: the scan over the decoded stops. -/
def scanPlaceCodes (busStop : String) : List PlaceCode → String × Option String
  | [] => ("", some "Bus stop place code not found")
  | placeCode :: rest =>
    if Contains placeCode.Description busStop then (placeCode.Place_code, none)
    else scanPlaceCodes busStop rest

/-- Lines 164-189. -/
def getBusStopPlaceCode (w : Env) (route_id : String) (direction_id : Int) (busStop : String)
    (s : State) : (String × Option String) × State :=
  match httpGet w (stopsURL route_id direction_id) s with
  | (.error err, s1) => (("", some err), s1)
  | (.ok resp, s1) =>
    match resp.Body with
    | .error err => (("", some err), s1)
    | .ok body =>
      match w.unmarshalPlaceCodes body with
      | .error err => (("", some err), s1)
      | .ok placeCodes => (scanPlaceCodes busStop placeCodes, s1)

/-! ## Library functions on time and floating point -/

/-- Two's-complement wrap-around of 64-bit signed arithmetic. -/
def wrapInt64 (x : Int) : Int := (x + 2 ^ 63) % 2 ^ 64 - 2 ^ 63

/-- Seconds from January 1 of year 1 to the Unix epoch (`unixToInternal` in package time). -/
def unixToInternal : Int := 62135596800

/-- A `time.Time` without monotonic reading: `sec` counts seconds since January 1 of
year 1 (an int64), `nsec` is in `[0, 999999999]`. -/
structure Time where
  sec : Int
  nsec : Int
deriving DecidableEq, Repr

/-- Go `time.Unix(sec, 0)`: the int64 sum `sec + unixToInternal` wraps around. -/
def Unix (sec : Int) : Time := ⟨wrapInt64 (sec + unixToInternal), 0⟩

/-- Go `time.Now()`: the wall clock reading of the environment. -/
def Now (w : Env) : Time := ⟨w.now / 10 ^ 9 + unixToInternal, w.now % 10 ^ 9⟩

/-- Largest `time.Duration`, in nanoseconds. -/
def maxDuration : Int := 2 ^ 63 - 1

/-- Smallest `time.Duration`, in nanoseconds. -/
def minDuration : Int := -2 ^ 63

/-- Go `t.Sub(u)`: the duration `t - u` in nanoseconds, or the largest (smallest) duration
when the difference is above (below) the int64 range. -/
def Time.Sub (t u : Time) : Int :=
  let d := (t.sec - u.sec) * 10 ^ 9 + (t.nsec - u.nsec)
  if d < minDuration then minDuration else if maxDuration < d then maxDuration else d

/-- Round a rational to the nearest integer, ties to the even one. -/
def roundHalfEven (z : ℚ) : ℤ :=
  let f := ⌊z⌋
  if z - f < 1 / 2 then f
  else if 1 / 2 < z - f then f + 1
  else if f % 2 = 0 then f else f + 1

/-- The float64 nearest to the rational `x`: a 53-bit significand scaled by a power of two,
rounded to nearest, ties to even. The exponent is not bounded here; every value the
program forms lies between `2 ^ (-36)` and `2 ^ 28` in magnitude or is zero, far inside
the normal range of float64. -/
def float64 (x : ℚ) : ℚ :=
  if x = 0 then 0
  else
    let e : ℤ := Int.log 2 |x| - 52
    (if x < 0 then -1 else 1) * (roundHalfEven (|x| / 2 ^ e) : ℚ) * 2 ^ e

/-- Go `time.Minute`, in nanoseconds. -/
def Minute : Int := 60 * 10 ^ 9

/-- Go `d.Minutes()`:
`min := d / Minute; nsec := d % Minute; return float64(min) + float64(nsec)/(60*1e9)`,
with int64 division truncating toward zero and each float64 operation rounded. -/
def Minutes (d : Int) : ℚ :=
  let min := Int.tdiv d Minute
  let nsec := Int.tmod d Minute
  float64 (float64 min + float64 (float64 nsec / float64 (60 * 1000000000)))

/-- Go `int(f)` for a float64 `f` in the range of `int`: the fraction is discarded. -/
def intOfFloat (f : ℚ) : Int := Int.tdiv f.num f.den

/-! ## The departure fetcher and the top level -/

/-- Lines 201-229. -/
def getTimeTillNextBusStop (w : Env) (route_id : String) (direction_id : Int)
    (place_code : String) (s : State) : (String × Option String) × State :=
  match httpGet w (departuresURL route_id direction_id place_code) s with
  | (.error err, s1) => (("", some err), s1)
  | (.ok resp, s1) =>
    match resp.Body with
    | .error err => (("", some err), s1)
    | .ok body =>
      match w.unmarshalRouteDepartures body with
      | .error err => (("", some err), s1)
      | .ok routeDepartures =>
        match routeDepartures.Departures with
        | [] => (("", none), s1)
        | first :: _ =>
          let departure_time := Unix first.Departure_time
          let currentTime := Now w
          let diff := departure_time.Sub currentTime
          ((fmtD (intOfFloat (Minutes diff)) ++ " Minutes", none), s1)

/-- Lines 64-70: the first route whose label equals `busRoute`, else the zero `Route`. -/
def selectRoute (busRoute : String) : List Route → Route
  | [] => Route.zero
  | route :: rest => if route.Route_label = busRoute then route else selectRoute busRoute rest

/-- Lines 56-93. -/
def calculateTimeTillNextBus (w : Env) (busRoute busStop direction : String) (s : State) :
    String × State :=
  match getRoutes w s with
  | (some err, s1) => ("Error retrieving routes: " ++ err, s1)
  | (none, s1) =>
    let selectedRoute := selectRoute busRoute s1.routes
    if selectedRoute.Route_label = "" then ("Error: Route not found", s1)
    else
      match getBusDirectionID w selectedRoute.Route_id direction s1 with
      | ((_, some err), s2) => ("Error getting bus direction ID: " ++ err, s2)
      | ((direction_id, none), s2) =>
        match getBusStopPlaceCode w selectedRoute.Route_id direction_id busStop s2 with
        | ((_, some err), s3) => ("Error getting bus direction ID: " ++ err, s3)
        | ((place_code, none), s3) =>
          match getTimeTillNextBusStop w selectedRoute.Route_id direction_id place_code s3 with
          | ((_, some err), s4) => ("Error getting time till next bus stop: " ++ err, s4)
          | ((timeTillNextBusStop, none), s4) => (timeTillNextBusStop, s4)

/-- Go `fmt.Println(x)` for a string: the text and a newline go to standard output. -/
def println (x : String) (s : State) : State := { s with stdout := s.stdout ++ x ++ "\n" }

/-- Lines 40-47. `args` is `os.Args`. -/
def main (w : Env) (args : List String) (s : State) : State :=
  match parseArgs args with
  | (busRoute, busStop, direction, errMsg) =>
    if errMsg ≠ "" then println errMsg s
    else
      match calculateTimeTillNextBus w busRoute busStop direction s with
      | (out, s1) => println out s1

/-! ## Vocabulary of the specification -/

/-- The three steps every stage starts with: `http.Get`, `ioutil.ReadAll`,
`json.Unmarshal`. The value is the decoded answer, or the first error. -/
def fetched {α : Type} (w : Env) (url : String) (unmarshal : String → Except String α) :
    Except String α :=
  match w.httpGet url with
  | .error err => .error err
  | .ok resp =>
    match resp.Body with
    | .error err => .error err
    | .ok body => unmarshal body

/-- The state after one more request. -/
def State.request (s : State) (url : String) : State :=
  { s with requests := s.requests ++ [url] }

/-- A direction entry matches the input `d`: its name, lower-cased, has `d` as a
substring. -/
def directionMatches (w : Env) (d : String) (x : RouteDirection) : Prop :=
  d.data <:+: (ToLower w.caseTable x.Direction_name).data

/-- A stop entry matches the input `b`: its description has `b` as a substring. -/
def stopMatches (b : String) (x : PlaceCode) : Prop :=
  b.data <:+: x.Description.data

/-- The usage message of `parseArgs`. -/
def usage : String :=
  "Not enough arguments. Use: go run nextBus.go [BusRoute] [BusStop] [Direction]"

/-! ## A mock server for the worked examples -/

/-- Answers of the mock server: four pages, anything else fails to resolve. -/
def mockPages (url : String) : Except String Response :=
  if url = routesURL then .ok ⟨.ok "routes"⟩
  else if url = directionsURL "901" then .ok ⟨.ok "directions"⟩
  else if url = stopsURL "901" 1 then .ok ⟨.ok "stops"⟩
  else if url = departuresURL "901" 1 "TF123" then .ok ⟨.ok "departures"⟩
  else .error "no such host"

/-- A mock environment: the four pages decode to the given values, the request for `down`
(if any) is refused, the clock reads `now` and the case table is the identity. -/
def mockEnv (catalog : List Route) (directions : List RouteDirection)
    (stops : List PlaceCode) (departures : List Departure) (now : Int)
    (down : Option String) : Env where
  httpGet := fun url => if some url = down then .error "connection refused" else mockPages url
  unmarshalRoutes := fun body =>
    if body = "routes" then .ok catalog else .error "unexpected end of JSON input"
  unmarshalRouteDirections := fun body =>
    if body = "directions" then .ok directions else .error "unexpected end of JSON input"
  unmarshalPlaceCodes := fun body =>
    if body = "stops" then .ok stops else .error "unexpected end of JSON input"
  unmarshalRouteDepartures := fun body =>
    if body = "departures" then .ok ⟨departures⟩ else .error "unexpected end of JSON input"
  partialRoutes := fun _ old => old
  now := now
  caseTable := id

/-- The route catalog of the end-to-end scenario. -/
def blueLine : List Route := [⟨"901", 0, "METRO Blue Line"⟩]

/-- The direction list of the end-to-end scenario. -/
def blueLineDirections : List RouteDirection := [⟨1, "Northbound"⟩]

/-- The stop list of the end-to-end scenario. -/
def blueLineStops : List PlaceCode := [⟨"TF123", "Target Field Station"⟩]

/-- The end-to-end scenario: the clock reads 1 700 000 000 s and the single departure is
`ahead` seconds later. -/
def scenario (ahead : Int) (down : Option String) : Env :=
  mockEnv blueLine blueLineDirections blueLineStops [⟨1700000000 + ahead⟩]
    (1700000000 * 10 ^ 9) down

/-- The scenario with a sub-second clock reading: the clock reads 1 700 000 000 s and 1 ns,
the single departure is at 1 715 728 700 s, that is 262144 minutes and 59.999999999 seconds
later. -/
def farScenario : Env :=
  mockEnv blueLine blueLineDirections blueLineStops [⟨1715728700⟩]
    (1700000000 * 10 ^ 9 + 1) none

/-- A mock server with two routes whose direction lists differ only in the letter case of
the names: route 901 has (1, "Northbound"), route 902 has (1, "NORTHBOUND"). -/
def caseEnv : Env where
  httpGet := fun url =>
    if url = directionsURL "901" then .ok ⟨.ok "mixed"⟩
    else if url = directionsURL "902" then .ok ⟨.ok "upper"⟩
    else .error "no such host"
  unmarshalRoutes := fun _ => .error "unexpected end of JSON input"
  unmarshalRouteDirections := fun body =>
    if body = "mixed" then .ok [⟨1, "Northbound"⟩]
    else if body = "upper" then .ok [⟨1, "NORTHBOUND"⟩]
    else .error "unexpected end of JSON input"
  unmarshalPlaceCodes := fun _ => .error "unexpected end of JSON input"
  unmarshalRouteDepartures := fun _ => .error "unexpected end of JSON input"
  partialRoutes := fun _ old => old
  now := 0
  caseTable := id

/-! ## Rounding to float64 -/

theorem roundHalfEven_le {z : ℚ} {N : ℤ} (h : z < N + 1 / 2) : roundHalfEven z ≤ N := by
  have hf : (⌊z⌋ : ℚ) ≤ z := Int.floor_le z
  have h1 : ⌊z⌋ ≤ N := by
    have : ((⌊z⌋ : ℤ) : ℚ) < ((N + 1 : ℤ) : ℚ) := by push_cast; linarith
    have := Int.cast_lt.mp this
    omega
  unfold roundHalfEven
  simp only
  split_ifs with a b c
  · exact h1
  · have : ((⌊z⌋ : ℤ) : ℚ) < ((N : ℤ) : ℚ) := by linarith
    have := Int.cast_lt.mp this
    omega
  · exact h1
  · have : ((⌊z⌋ : ℤ) : ℚ) < ((N : ℤ) : ℚ) := by
      have : (1:ℚ) / 2 ≤ z - ⌊z⌋ := not_lt.mp a
      linarith
    have := Int.cast_lt.mp this
    omega

theorem le_roundHalfEven {z : ℚ} {N : ℤ} (h : (N : ℚ) ≤ z) : N ≤ roundHalfEven z := by
  have h1 : N ≤ ⌊z⌋ := Int.le_floor.mpr h
  unfold roundHalfEven
  simp only
  split_ifs <;> omega

theorem float64_neg (x : ℚ) : float64 (-x) = -float64 x := by
  unfold float64
  by_cases h0 : x = 0
  · simp [h0]
  · have h0' : -x ≠ 0 := neg_ne_zero.mpr h0
    simp only [h0, h0', if_false, abs_neg]
    rcases lt_or_gt_of_ne h0 with h | h
    · have : ¬ (-x < 0) := by linarith
      simp [h, this]
    · have : ¬ (x < 0) := by linarith
      have h' : -x < 0 := by linarith
      simp [h', this]

/-- For positive `x` in the binade of exponent `e`: a bound that is a multiple of the unit
in the last place, or half a unit above one, carries over to the rounded value. -/
theorem float64_le {x : ℚ} (hx : 0 < x) {e : ℤ} (he : Int.log 2 x - 52 = e) {k : ℤ}
    (h : x < (k + 1 / 2) * 2 ^ e) : float64 x ≤ k * 2 ^ e := by
  have hp : (0:ℚ) < 2 ^ e := by positivity
  unfold float64
  have hx0 : x ≠ 0 := ne_of_gt hx
  have hnl : ¬ x < 0 := by linarith
  simp only [hx0, if_false, abs_of_pos hx, he, hnl, one_mul]
  have : roundHalfEven (x / 2 ^ e) ≤ k := by
    apply roundHalfEven_le
    rw [div_lt_iff₀ hp]; exact h
  have : ((roundHalfEven (x / 2 ^ e) : ℤ) : ℚ) ≤ (k : ℚ) := Int.cast_le.mpr this
  exact mul_le_mul_of_nonneg_right this hp.le

theorem le_float64 {x : ℚ} (hx : 0 < x) {e : ℤ} (he : Int.log 2 x - 52 = e) {k : ℤ}
    (h : (k : ℚ) * 2 ^ e ≤ x) : k * 2 ^ e ≤ float64 x := by
  have hp : (0:ℚ) < 2 ^ e := by positivity
  unfold float64
  have hx0 : x ≠ 0 := ne_of_gt hx
  have hnl : ¬ x < 0 := by linarith
  simp only [hx0, if_false, abs_of_pos hx, he, hnl, one_mul]
  have : k ≤ roundHalfEven (x / 2 ^ e) := by
    apply le_roundHalfEven
    rw [le_div_iff₀ hp]; exact h
  have : (k : ℚ) ≤ ((roundHalfEven (x / 2 ^ e) : ℤ) : ℚ) := Int.cast_le.mpr this
  exact mul_le_mul_of_nonneg_right this hp.le


theorem float64_expo {x : ℚ} (hx : 0 < x) {g : ℕ} (h : x * 2 ^ g < 2 ^ 53) :
    ∃ n : ℕ, Int.log 2 x - 52 = -((g : ℤ) + n) := by
  have hg : (0:ℚ) < 2 ^ g := by positivity
  have h1 : x < ((2:ℕ):ℚ) ^ ((53:ℤ) - g) := by
    rw [zpow_sub₀ (by norm_num), lt_div_iff₀ (by positivity)]
    have e1 : (((2:ℕ):ℚ)) ^ (53:ℤ) = 2 ^ 53 := by norm_num
    have e2 : (((2:ℕ):ℚ)) ^ (g:ℤ) = 2 ^ g := by rw [zpow_natCast]; norm_num
    rw [e1, e2]; exact h
  have h2 := (Int.lt_zpow_iff_log_lt (by norm_num : 1 < 2) hx).mp h1
  refine ⟨(-(g:ℤ) - (Int.log 2 x - 52)).toNat, ?_⟩
  rw [Int.toNat_of_nonneg (by omega)]
  ring

theorem zpow_expo (g n : ℕ) : (2:ℚ) ^ (-((g:ℤ) + n)) = 1 / (2 ^ g * 2 ^ n) := by
  rw [zpow_neg, ← pow_add, one_div]
  congr 1
  rw [← zpow_natCast]
  push_cast
  rfl

theorem grid_scale (j : ℚ) (g n : ℕ) :
    j * 2 ^ n * (1 / (2 ^ g * 2 ^ n)) = j / 2 ^ g := by
  have hg : (0:ℚ) < 2 ^ g := by positivity
  have hn : (0:ℚ) < 2 ^ n := by positivity
  field_simp
  ring

theorem float64_le_grid {x : ℚ} (hx : 0 < x) {g : ℕ} (h : x * 2 ^ g < 2 ^ 53) {j : ℤ}
    (hj : x ≤ j / 2 ^ g) : float64 x ≤ j / 2 ^ g := by
  obtain ⟨n, hn⟩ := float64_expo hx h
  have hg : (0:ℚ) < 2 ^ g := by positivity
  have hn' : (0:ℚ) < 2 ^ n := by positivity
  have key := float64_le hx hn (k := j * 2 ^ n) (by
    rw [zpow_expo]; push_cast
    have e2 : ((j:ℚ) * 2 ^ n + 1 / 2) * (1 / (2 ^ g * 2 ^ n))
        = j / 2 ^ g + 1 / (2 * (2 ^ g * 2 ^ n)) := by
      rw [add_mul, grid_scale]; field_simp
    have : (0:ℚ) < 1 / (2 * (2 ^ g * 2 ^ n)) := by positivity
    rw [e2]; linarith)
  rw [zpow_expo] at key
  push_cast at key
  rw [grid_scale] at key
  exact key

theorem grid_le_float64 {x : ℚ} (hx : 0 < x) {g : ℕ} (h : x * 2 ^ g < 2 ^ 53) {j : ℤ}
    (hj : (j:ℚ) / 2 ^ g ≤ x) : (j:ℚ) / 2 ^ g ≤ float64 x := by
  obtain ⟨n, hn⟩ := float64_expo hx h
  have key := le_float64 hx hn (k := j * 2 ^ n) (by
    rw [zpow_expo]; push_cast; rw [grid_scale]; exact hj)
  rw [zpow_expo] at key
  push_cast at key
  rw [grid_scale] at key
  exact key

theorem float64_lt_grid_succ {x : ℚ} (hx : 0 < x) {g : ℕ} (h : x * 2 ^ g < 2 ^ 53) {j : ℤ}
    (hj : x < (j + 1 / 2) / 2 ^ g) : float64 x < (j + 1) / 2 ^ g := by
  obtain ⟨n, hn⟩ := float64_expo hx h
  have hg : (0:ℚ) < 2 ^ g := by positivity
  have hn' : (1:ℚ) ≤ 2 ^ n := one_le_pow₀ (by norm_num)
  have hn0 : (0:ℚ) < 2 ^ n := by positivity
  have hinv : (1:ℚ) / (2 ^ g * 2 ^ n) ≤ 1 / 2 ^ g := by
    apply one_div_le_one_div_of_le hg
    nlinarith
  have hinv0 : (0:ℚ) < 1 / (2 ^ g * 2 ^ n) := by positivity
  have e1 : ((j:ℚ) + 1) * 2 ^ n * (1 / (2 ^ g * 2 ^ n)) = (j + 1) / 2 ^ g := grid_scale _ g n
  have key := float64_le hx hn (k := (j + 1) * 2 ^ n - 1) (by
    rw [zpow_expo]; push_cast
    have e2 : (((j:ℚ) + 1) * 2 ^ n - 1 + 1 / 2) * (1 / (2 ^ g * 2 ^ n))
        = (j + 1) / 2 ^ g - 1 / 2 * (1 / (2 ^ g * 2 ^ n)) := by
      rw [← e1]; ring
    have e3 : ((j:ℚ) + 1 / 2) / 2 ^ g = (j + 1) / 2 ^ g - 1 / 2 * (1 / 2 ^ g) := by
      field_simp; ring
    rw [e2]; rw [e3] at hj
    nlinarith)
  rw [zpow_expo] at key
  push_cast at key
  have e4 : (((j:ℚ) + 1) * 2 ^ n - 1) * (1 / (2 ^ g * 2 ^ n))
      = (j + 1) / 2 ^ g - 1 / (2 ^ g * 2 ^ n) := by
    rw [← e1]; ring
  rw [e4] at key
  linarith

theorem float64_intCast {n : ℤ} (h : |n| < 2 ^ 53) : float64 (n : ℚ) = n := by
  rcases lt_trichotomy n 0 with hn | hn | hn
  · have hpos : (0:ℚ) < ((-n : ℤ) : ℚ) := by exact_mod_cast (by omega : 0 < -n)
    have hb : ((-n : ℤ) : ℚ) * 2 ^ 0 < 2 ^ 53 := by
      rw [abs_of_neg hn] at h
      rw [pow_zero, mul_one]; exact_mod_cast h
    have h1 := float64_le_grid hpos hb (j := -n) (by simp)
    have h2 := grid_le_float64 hpos hb (j := -n) (by simp)
    have h3 : float64 ((-n : ℤ) : ℚ) = ((-n : ℤ) : ℚ) := by
      simp only [pow_zero, div_one] at h1 h2
      exact le_antisymm h1 h2
    have h4 : ((-n : ℤ) : ℚ) = -(n : ℚ) := by push_cast; ring
    rw [h4, float64_neg] at h3
    linarith
  · subst hn; simp [float64]
  · have hpos : (0:ℚ) < (n : ℚ) := by exact_mod_cast hn
    have hb : (n : ℚ) * 2 ^ 0 < 2 ^ 53 := by
      rw [abs_of_pos hn] at h
      rw [pow_zero, mul_one]; exact_mod_cast h
    have h1 := float64_le_grid hpos hb (j := n) (by simp)
    have h2 := grid_le_float64 hpos hb (j := n) (by simp)
    simp only [pow_zero, div_one] at h1 h2
    exact le_antisymm h1 h2


theorem intOfFloat_neg (s : ℚ) : intOfFloat (-s) = -intOfFloat s := by
  unfold intOfFloat
  rw [Rat.num_neg_eq_neg_num, Rat.den_neg_eq_den, Int.neg_tdiv]

theorem intOfFloat_of_bounds {s : ℚ} {m : ℤ} (h0 : 0 ≤ m) (h1 : (m : ℚ) ≤ s)
    (h2 : s < m + 1) : intOfFloat s = m := by
  have hs : (0:ℚ) ≤ s := le_trans (by exact_mod_cast h0) h1
  have hnum : 0 ≤ s.num := Rat.num_nonneg.mpr hs
  unfold intOfFloat
  rw [Int.tdiv_eq_ediv hnum (by positivity), ← Rat.floor_def']
  exact Int.floor_eq_iff.mpr ⟨h1, h2⟩

theorem neg_tmod (a b : ℤ) : (-a).tmod b = -(a.tmod b) := by
  rw [Int.tmod_def, Int.tmod_def, Int.neg_tdiv]; ring

theorem Minutes_neg (d : ℤ) : Minutes (-d) = -Minutes d := by
  unfold Minutes
  simp only [Int.neg_tdiv, neg_tmod, Int.cast_neg, float64_neg, neg_div, ← neg_add]

theorem Minutes_bounds {d : ℤ} (h0 : 0 ≤ d) (h : d < 2 ^ 18 * Minute) :
    ((d.tdiv Minute : ℤ) : ℚ) ≤ Minutes d ∧ Minutes d < (d.tdiv Minute : ℤ) + 1 := by
  have hM : Minute = 60000000000 := by norm_num [Minute]
  have hMpos : (0:ℤ) ≤ Minute := by rw [hM]; norm_num
  rw [hM] at h
  have hm0 : 0 ≤ d.tdiv Minute := by
    rw [Int.tdiv_eq_ediv h0 hMpos, hM]; omega
  have hm1 : d.tdiv Minute < 2 ^ 18 := by
    rw [Int.tdiv_eq_ediv h0 hMpos, hM]; omega
  have hr0 : 0 ≤ d.tmod Minute := by
    rw [Int.tmod_eq_emod h0 hMpos, hM]; omega
  have hr1 : d.tmod Minute ≤ 59999999999 := by
    rw [Int.tmod_eq_emod h0 hMpos, hM]; omega
  unfold Minutes
  simp only
  generalize d.tdiv Minute = m at hm0 hm1 ⊢
  generalize d.tmod Minute = r at hr0 hr1 ⊢
  have em : float64 (m : ℚ) = m := float64_intCast (by rw [abs_of_nonneg hm0]; omega)
  have er : float64 (r : ℚ) = r := float64_intCast (by rw [abs_of_nonneg hr0]; omega)
  have ec : float64 (60 * 1000000000 : ℚ) = 60000000000 := by
    have := float64_intCast (n := 60000000000) (by norm_num)
    norm_num at this ⊢
    exact this
  rw [em, er, ec]
  have hmq0 : (0:ℚ) ≤ m := by exact_mod_cast hm0
  have hmq1 : (m:ℚ) ≤ 2 ^ 18 - 1 := by
    have : m ≤ 2 ^ 18 - 1 := by omega
    exact_mod_cast this
  have hrq0 : (0:ℚ) ≤ r := by exact_mod_cast hr0
  have hrq1 : (r:ℚ) ≤ 59999999999 := by exact_mod_cast hr1
  -- the rounded fraction stays at least one unit of 2^-53 grid below 1 - 2^-36
  have hq : 0 ≤ float64 ((r:ℚ) / 60000000000) ∧
      float64 ((r:ℚ) / 60000000000) ≤ ((2 ^ 53 - 2 ^ 17 - 2 ^ 14 : ℤ) : ℚ) / 2 ^ 53 := by
    rcases eq_or_lt_of_le hrq0 with h0' | hpos
    · rw [← h0']; norm_num [float64]
    · have hx : (0:ℚ) < (r:ℚ) / 60000000000 := by positivity
      have hb : (r:ℚ) / 60000000000 * 2 ^ 53 < 2 ^ 53 := by
        rw [div_mul_eq_mul_div, div_lt_iff₀ (by norm_num)]
        nlinarith
      constructor
      · have := grid_le_float64 hx hb (j := 0) (by simpa using hx.le)
        simpa using this
      · apply float64_le_grid hx hb
        rw [div_le_div_iff₀ (by norm_num) (by positivity)]
        push_cast
        norm_num
        linarith
  obtain ⟨hq0, hq1⟩ := hq
  generalize float64 ((r:ℚ) / 60000000000) = q at hq0 hq1
  have hq2 : q < 1 - 1 / 2 ^ 36 := by
    refine lt_of_le_of_lt hq1 ?_
    norm_num
  have hy0 : 0 ≤ (m:ℚ) + q := by linarith
  rcases eq_or_lt_of_le hy0 with hz | hypos
  · rw [← hz]
    have hm : (m:ℚ) = 0 := by linarith
    rw [hm]
    norm_num [float64]
  · have hb : ((m:ℚ) + q) * 2 ^ 35 < 2 ^ 53 := by
      have : (m:ℚ) + q < 2 ^ 18 := by linarith
      calc ((m:ℚ) + q) * 2 ^ 35 < 2 ^ 18 * 2 ^ 35 := by
            apply mul_lt_mul_of_pos_right this (by positivity)
        _ = 2 ^ 53 := by norm_num
    constructor
    · have e : (((m * 2 ^ 35 : ℤ) : ℚ)) / 2 ^ 35 = m := by push_cast; ring
      have := grid_le_float64 hypos hb (j := m * 2 ^ 35) (by rw [e]; linarith)
      rw [e] at this
      exact this
    · have e1 : ((((m + 1) * 2 ^ 35 - 1 : ℤ) : ℚ) + 1 / 2) / 2 ^ 35 = m + 1 - 1 / 2 ^ 36 := by
        push_cast; ring
      have e2 : ((((m + 1) * 2 ^ 35 - 1 : ℤ) : ℚ) + 1) / 2 ^ 35 = m + 1 := by
        push_cast; ring
      have := float64_lt_grid_succ hypos hb (j := (m + 1) * 2 ^ 35 - 1) (by rw [e1]; linarith)
      rw [e2] at this
      exact this

/-- Within 2^18 minutes of zero, `int(d.Minutes())` is `d / Minute` truncated toward zero. -/
theorem intOfFloat_Minutes {d : ℤ} (h : |d| < 2 ^ 18 * Minute) :
    intOfFloat (Minutes d) = d.tdiv Minute := by
  have hM : (0:ℤ) ≤ Minute := by norm_num [Minute]
  rcases le_total 0 d with h0 | h0
  · rw [abs_of_nonneg h0] at h
    obtain ⟨h1, h2⟩ := Minutes_bounds h0 h
    exact intOfFloat_of_bounds (Int.tdiv_nonneg h0 hM) h1 h2
  · rw [abs_of_nonpos h0] at h
    have h0' : 0 ≤ -d := by omega
    obtain ⟨h1, h2⟩ := Minutes_bounds h0' h
    have := intOfFloat_of_bounds (Int.tdiv_nonneg h0' hM) h1 h2
    rw [Minutes_neg, intOfFloat_neg, Int.neg_tdiv] at this
    omega


theorem roundHalfEven_ge {z : ℚ} {N : ℤ} (h : (N : ℚ) - 1 / 2 < z) : N ≤ roundHalfEven z := by
  have hf : z < (⌊z⌋ : ℚ) + 1 := Int.lt_floor_add_one z
  have h1 : N - 1 ≤ ⌊z⌋ := by
    have : ((N - 1 : ℤ) : ℚ) < ((⌊z⌋ + 1 : ℤ) : ℚ) := by push_cast; linarith
    have := Int.cast_lt.mp this
    omega
  unfold roundHalfEven
  simp only
  split_ifs with a b c
  · have : ((N - 1 : ℤ) : ℚ) < ((⌊z⌋ : ℤ) : ℚ) := by push_cast; linarith
    have := Int.cast_lt.mp this
    omega
  · omega
  · have : ((N - 1 : ℤ) : ℚ) < ((⌊z⌋ : ℤ) : ℚ) := by
      push_cast
      have : z - ⌊z⌋ ≤ (1:ℚ) / 2 := not_lt.mp b
      have : (1:ℚ) / 2 ≤ z - ⌊z⌋ := not_lt.mp a
      linarith
    have := Int.cast_lt.mp this
    omega
  · omega


theorem float64_ge {x : ℚ} (hx : 0 < x) {e : ℤ} (he : Int.log 2 x - 52 = e) {k : ℤ}
    (h : ((k : ℚ) - 1 / 2) * 2 ^ e < x) : k * 2 ^ e ≤ float64 x := by
  have hp : (0:ℚ) < 2 ^ e := by positivity
  unfold float64
  have hx0 : x ≠ 0 := ne_of_gt hx
  have hnl : ¬ x < 0 := by linarith
  simp only [hx0, if_false, abs_of_pos hx, he, hnl, one_mul]
  have : k ≤ roundHalfEven (x / 2 ^ e) := by
    apply roundHalfEven_ge
    rw [lt_div_iff₀ hp]; exact h
  have : (k : ℚ) ≤ ((roundHalfEven (x / 2 ^ e) : ℤ) : ℚ) := Int.cast_le.mpr this
  exact mul_le_mul_of_nonneg_right this hp.le

/-- At 2^18 minutes and 59.999999999 seconds the float64 sum in `Minutes` rounds up to
the next whole minute. -/
theorem intOfFloat_Minutes_roundsUp : intOfFloat (Minutes 15728699999999999) = 262145 := by
  have hd : (15728699999999999 : ℤ).tdiv Minute = 262144 := by decide
  have hr : (15728699999999999 : ℤ).tmod Minute = 59999999999 := by decide
  unfold Minutes
  simp only [hd, hr]
  have em : float64 ((262144 : ℤ) : ℚ) = (262144 : ℤ) := float64_intCast (by norm_num)
  have er : float64 ((59999999999 : ℤ) : ℚ) = (59999999999 : ℤ) :=
    float64_intCast (by norm_num)
  have ec : float64 (60 * 1000000000 : ℚ) = 60000000000 := by
    have := float64_intCast (n := 60000000000) (by norm_num)
    norm_num at this ⊢
    exact this
  rw [em, er, ec]
  have hx : (0:ℚ) < ((59999999999 : ℤ) : ℚ) / 60000000000 := by norm_num
  have hb : ((59999999999 : ℤ) : ℚ) / 60000000000 * 2 ^ 53 < 2 ^ 53 := by norm_num
  have hq1 := grid_le_float64 hx hb (j := 2 ^ 53 - 2 ^ 18 + 1) (by norm_num)
  have hq2 := float64_le_grid hx hb (j := 2 ^ 53 - 1) (by norm_num)
  generalize float64 (((59999999999 : ℤ) : ℚ) / 60000000000) = q at hq1 hq2
  have hq1' : 1 - 1 / 2 ^ 35 < q := by
    refine lt_of_lt_of_le ?_ hq1
    norm_num
  have hq2' : q < 1 := by
    refine lt_of_le_of_lt hq2 ?_
    norm_num
  have hy : (0:ℚ) < ((262144 : ℤ) : ℚ) + q := by push_cast; linarith
  have hlog : Int.log 2 (((262144 : ℤ) : ℚ) + q) - 52 = -34 := by
    have h1 : (18:ℤ) ≤ Int.log 2 (((262144 : ℤ) : ℚ) + q) := by
      rw [← Int.zpow_le_iff_le_log (by norm_num) hy]
      norm_num; linarith
    have h2 : Int.log 2 (((262144 : ℤ) : ℚ) + q) < 19 := by
      rw [← Int.lt_zpow_iff_log_lt (by norm_num) hy]
      norm_num; linarith
    omega
  have hlow := float64_ge hy hlog (k := 262145 * 2 ^ 34) (by
    rw [zpow_neg]; norm_num; linarith)
  have hb2 : (((262144 : ℤ) : ℚ) + q) * 2 ^ 34 < 2 ^ 53 := by
    push_cast; linarith
  have hup := float64_lt_grid_succ hy hb2 (j := 262145 * 2 ^ 34) (by
    norm_num; linarith)
  apply intOfFloat_of_bounds (by norm_num)
  · refine le_trans ?_ hlow
    rw [zpow_neg]; norm_num
  · refine lt_of_lt_of_le hup ?_
    norm_num

/-! ## Strings -/

theorem hasInfix_iff (s sub : List Char) : hasInfix s sub = true ↔ sub <:+: s := by
  induction s with
  | nil =>
    cases sub <;> simp [hasInfix]
  | cons c cs ih =>
    rw [hasInfix, Bool.or_eq_true, ih, List.isPrefixOf_iff_prefix, List.infix_cons_iff]

theorem Contains_iff (s substr : String) : Contains s substr = true ↔ substr.data <:+: s.data :=
  hasInfix_iff _ _

theorem direction_prefix_ne (m : String) :
    "Error getting bus direction ID: " ++ m ≠ "Error: Route not found" := by
  intro h
  have := congrArg (fun s => s.data.get? 5) h
  simp [String.data_append] at this

theorem departure_prefix_ne (m : String) :
    "Error getting time till next bus stop: " ++ m ≠ "Error: Route not found" := by
  intro h
  have := congrArg (fun s => s.data.get? 5) h
  simp [String.data_append] at this

theorem minutes_ne (n : Int) : fmtD n ++ " Minutes" ≠ "Error: Route not found" := by
  intro h
  have := congrArg (fun s => s.data.getLast?) h
  simp [String.data_append] at this

theorem empty_ne : ("" : String) ≠ "Error: Route not found" := by decide

/-! ## The stages in terms of the decoded answer -/

theorem getRoutes_ok (w : Env) (s : State) (rs : List Route)
    (h : fetched w routesURL w.unmarshalRoutes = .ok rs) :
    getRoutes w s = (none, { s.request routesURL with routes := rs }) := by
  unfold fetched at h
  unfold getRoutes httpGet State.request
  cases hg : w.httpGet routesURL with
  | error e => rw [hg] at h; simp at h
  | ok resp =>
    rw [hg] at h
    dsimp only at h ⊢
    cases hb : resp.Body with
    | error e => rw [hb] at h; simp at h
    | ok body =>
      rw [hb] at h
      dsimp only at h ⊢
      rw [h]

theorem getRoutes_fst (w : Env) (s : State) :
    (getRoutes w s).1 =
      match fetched w routesURL w.unmarshalRoutes with
      | .error err => some err
      | .ok _ => none := by
  unfold getRoutes fetched httpGet
  cases w.httpGet routesURL with
  | error e => rfl
  | ok resp =>
    dsimp only
    cases resp.Body with
    | error e => rfl
    | ok body =>
      dsimp only
      cases w.unmarshalRoutes body <;> rfl

theorem getRoutes_requests (w : Env) (s : State) :
    (getRoutes w s).2.requests = s.requests ++ [routesURL] := by
  unfold getRoutes httpGet
  cases w.httpGet routesURL with
  | error e => rfl
  | ok resp =>
    dsimp only
    cases resp.Body with
    | error e => rfl
    | ok body =>
      dsimp only
      cases w.unmarshalRoutes body <;> rfl

theorem getBusDirectionID_eq (w : Env) (route_id direction : String) (s : State) :
    getBusDirectionID w route_id direction s =
      (match fetched w (directionsURL route_id) w.unmarshalRouteDirections with
        | .error err => (0, some err)
        | .ok routeDirections => scanDirections w direction routeDirections,
       s.request (directionsURL route_id)) := by
  unfold getBusDirectionID fetched httpGet State.request
  cases w.httpGet (directionsURL route_id) with
  | error e => rfl
  | ok resp =>
    dsimp only
    cases resp.Body with
    | error e => rfl
    | ok body =>
      dsimp only
      cases w.unmarshalRouteDirections body <;> rfl

theorem getBusStopPlaceCode_eq (w : Env) (route_id : String) (direction_id : Int)
    (busStop : String) (s : State) :
    getBusStopPlaceCode w route_id direction_id busStop s =
      (match fetched w (stopsURL route_id direction_id) w.unmarshalPlaceCodes with
        | .error err => ("", some err)
        | .ok placeCodes => scanPlaceCodes busStop placeCodes,
       s.request (stopsURL route_id direction_id)) := by
  unfold getBusStopPlaceCode fetched httpGet State.request
  cases w.httpGet (stopsURL route_id direction_id) with
  | error e => rfl
  | ok resp =>
    dsimp only
    cases resp.Body with
    | error e => rfl
    | ok body =>
      dsimp only
      cases w.unmarshalPlaceCodes body <;> rfl

theorem getTimeTillNextBusStop_eq (w : Env) (route_id : String) (direction_id : Int)
    (place_code : String) (s : State) :
    getTimeTillNextBusStop w route_id direction_id place_code s =
      (match fetched w (departuresURL route_id direction_id place_code)
          w.unmarshalRouteDepartures with
        | .error err => ("", some err)
        | .ok routeDepartures =>
          match routeDepartures.Departures with
          | [] => ("", none)
          | first :: _ =>
            (fmtD (intOfFloat (Minutes ((Unix first.Departure_time).Sub (Now w))))
              ++ " Minutes", none),
       s.request (departuresURL route_id direction_id place_code)) := by
  unfold getTimeTillNextBusStop fetched httpGet State.request
  cases w.httpGet (departuresURL route_id direction_id place_code) with
  | error e => rfl
  | ok resp =>
    dsimp only
    cases resp.Body with
    | error e => rfl
    | ok body =>
      dsimp only
      cases w.unmarshalRouteDepartures body with
      | error e => rfl
      | ok rd =>
        dsimp only
        cases rd.Departures <;> rfl

/-! ## The three linear scans -/

theorem selectRoute_first (busRoute : String) (pre post : List Route) (r : Route)
    (hpre : ∀ x ∈ pre, x.Route_label ≠ busRoute) (hr : r.Route_label = busRoute) :
    selectRoute busRoute (pre ++ r :: post) = r := by
  induction pre with
  | nil => simp [selectRoute, hr]
  | cons x xs ih =>
    have hx : x.Route_label ≠ busRoute := hpre x (List.mem_cons_self _ _)
    simp only [List.cons_append, selectRoute, hx, if_false]
    exact ih (fun y hy => hpre y (List.mem_cons_of_mem _ hy))

theorem selectRoute_none (busRoute : String) (catalog : List Route)
    (h : ∀ x ∈ catalog, x.Route_label ≠ busRoute) : selectRoute busRoute catalog = Route.zero := by
  induction catalog with
  | nil => rfl
  | cons x xs ih =>
    have hx : x.Route_label ≠ busRoute := h x (List.mem_cons_self _ _)
    simp only [selectRoute, hx, if_false]
    exact ih (fun y hy => h y (List.mem_cons_of_mem _ hy))

theorem exists_first {α : Type} (p : α → Prop) (l : List α) (h : ∃ x ∈ l, p x) :
    ∃ pre x post, l = pre ++ x :: post ∧ (∀ y ∈ pre, ¬ p y) ∧ p x := by
  induction l with
  | nil => simp at h
  | cons a as ih =>
    by_cases ha : p a
    · exact ⟨[], a, as, rfl, by simp, ha⟩
    · have : ∃ x ∈ as, p x := by
        obtain ⟨x, hx, hp⟩ := h
        rcases List.mem_cons.mp hx with rfl | hx
        · exact absurd hp ha
        · exact ⟨x, hx, hp⟩
      obtain ⟨pre, x, post, e, hpre, hx⟩ := ih this
      refine ⟨a :: pre, x, post, by simp [e], ?_, hx⟩
      intro y hy
      rcases List.mem_cons.mp hy with rfl | hy
      · exact ha
      · exact hpre y hy

theorem scanDirections_first (w : Env) (d : String) (pre post : List RouteDirection)
    (e : RouteDirection) (hpre : ∀ x ∈ pre, ¬ directionMatches w d x)
    (he : directionMatches w d e) :
    scanDirections w d (pre ++ e :: post) = (e.Direction_id, none) := by
  induction pre with
  | nil =>
    have : Contains (ToLower w.caseTable e.Direction_name) d = true := (Contains_iff _ _).mpr he
    simp [scanDirections, this]
  | cons x xs ih =>
    have hx : ¬ Contains (ToLower w.caseTable x.Direction_name) d = true := fun h =>
      hpre x (List.mem_cons_self _ _) ((Contains_iff _ _).mp h)
    simp only [List.cons_append, scanDirections, hx, if_false]
    exact ih (fun y hy => hpre y (List.mem_cons_of_mem _ hy))

theorem scanDirections_none (w : Env) (d : String) (l : List RouteDirection)
    (h : ∀ x ∈ l, ¬ directionMatches w d x) :
    scanDirections w d l = (0, some "Route direction not found") := by
  induction l with
  | nil => rfl
  | cons x xs ih =>
    have hx : ¬ Contains (ToLower w.caseTable x.Direction_name) d = true := fun h' =>
      h x (List.mem_cons_self _ _) ((Contains_iff _ _).mp h')
    simp only [scanDirections, hx, if_false]
    exact ih (fun y hy => h y (List.mem_cons_of_mem _ hy))

theorem scanPlaceCodes_first (b : String) (pre post : List PlaceCode)
    (e : PlaceCode) (hpre : ∀ x ∈ pre, ¬ stopMatches b x) (he : stopMatches b e) :
    scanPlaceCodes b (pre ++ e :: post) = (e.Place_code, none) := by
  induction pre with
  | nil =>
    have : Contains e.Description b = true := (Contains_iff _ _).mpr he
    simp [scanPlaceCodes, this]
  | cons x xs ih =>
    have hx : ¬ Contains x.Description b = true := fun h =>
      hpre x (List.mem_cons_self _ _) ((Contains_iff _ _).mp h)
    simp only [List.cons_append, scanPlaceCodes, hx, if_false]
    exact ih (fun y hy => hpre y (List.mem_cons_of_mem _ hy))

theorem scanPlaceCodes_none (b : String) (l : List PlaceCode)
    (h : ∀ x ∈ l, ¬ stopMatches b x) :
    scanPlaceCodes b l = ("", some "Bus stop place code not found") := by
  induction l with
  | nil => rfl
  | cons x xs ih =>
    have hx : ¬ Contains x.Description b = true := fun h' =>
      h x (List.mem_cons_self _ _) ((Contains_iff _ _).mp h')
    simp only [scanPlaceCodes, hx, if_false]
    exact ih (fun y hy => h y (List.mem_cons_of_mem _ hy))

/-! ## Route resolution -/

/-- C1. When the catalog was fetched and no entry has a label equal to the requested one,
`calculateTimeTillNextBus` returns "Error: Route not found" after the single request for the
catalog: no route is selected and no direction lookup is made. -/
theorem route_not_found_of_no_equal_label (w : Env) (s : State) (catalog : List Route)
    (busRoute busStop direction : String)
    (hfetch : fetched w routesURL w.unmarshalRoutes = .ok catalog)
    (hno : ∀ r ∈ catalog, r.Route_label ≠ busRoute) :
    selectRoute busRoute catalog = Route.zero ∧
    calculateTimeTillNextBus w busRoute busStop direction s =
      ("Error: Route not found", { s.request routesURL with routes := catalog }) := by
  have hsel := selectRoute_none busRoute catalog hno
  refine ⟨hsel, ?_⟩
  unfold calculateTimeTillNextBus
  rw [getRoutes_ok w s catalog hfetch]
  dsimp only
  rw [hsel]
  simp [Route.zero]

/-- C1 at the example of the claim: "A Line" against a catalog holding only
"A Line Express". -/
theorem route_not_found_of_no_equal_label_witness :
    fetched (mockEnv [⟨"921", 0, "A Line Express"⟩] [] [] [] 0 none) routesURL
        (mockEnv [⟨"921", 0, "A Line Express"⟩] [] [] [] 0 none).unmarshalRoutes
      = .ok [⟨"921", 0, "A Line Express"⟩] ∧
    (∀ r ∈ [(⟨"921", 0, "A Line Express"⟩ : Route)], r.Route_label ≠ "A Line") ∧
    (calculateTimeTillNextBus (mockEnv [⟨"921", 0, "A Line Express"⟩] [] [] [] 0 none)
        "A Line" "Target Field" "north" State.init).1 = "Error: Route not found" ∧
    (calculateTimeTillNextBus (mockEnv [⟨"921", 0, "A Line Express"⟩] [] [] [] 0 none)
        "A Line" "Target Field" "north" State.init).2.requests = [routesURL] :=
  have h := route_not_found_of_no_equal_label
    (mockEnv [⟨"921", 0, "A Line Express"⟩] [] [] [] 0 none) State.init
    [⟨"921", 0, "A Line Express"⟩] "A Line" "Target Field" "north" rfl (by decide)
  ⟨rfl, by decide, by rw [h.2], by rw [h.2]; rfl⟩

/-- Once the catalog is fetched and a route with a non-empty label is selected, the result
is that of the three later stages, run in order from the selected route. -/
theorem calculate_of_selected (w : Env) (s : State) (catalog : List Route)
    (busRoute busStop direction : String) (r : Route)
    (hfetch : fetched w routesURL w.unmarshalRoutes = .ok catalog)
    (hsel : selectRoute busRoute catalog = r) (hlabel : r.Route_label ≠ "") :
    calculateTimeTillNextBus w busRoute busStop direction s =
      match getBusDirectionID w r.Route_id direction
          { s.request routesURL with routes := catalog } with
      | ((_, some err), s2) => ("Error getting bus direction ID: " ++ err, s2)
      | ((direction_id, none), s2) =>
        match getBusStopPlaceCode w r.Route_id direction_id busStop s2 with
        | ((_, some err), s3) => ("Error getting bus direction ID: " ++ err, s3)
        | ((place_code, none), s3) =>
          match getTimeTillNextBusStop w r.Route_id direction_id place_code s3 with
          | ((_, some err), s4) => ("Error getting time till next bus stop: " ++ err, s4)
          | ((timeTillNextBusStop, none), s4) => (timeTillNextBusStop, s4) := by
  unfold calculateTimeTillNextBus
  rw [getRoutes_ok w s catalog hfetch]
  dsimp only
  rw [hsel, if_neg hlabel]

/-- When the catalog stage fails with message `m`, the result is the routes prefix followed
by `m`, after the single request for the catalog. -/
theorem calculate_of_routes_error (w : Env) (s : State) (busRoute busStop direction m : String)
    (h : (getRoutes w s).1 = some m) :
    (calculateTimeTillNextBus w busRoute busStop direction s).1
      = "Error retrieving routes: " ++ m ∧
    (calculateTimeTillNextBus w busRoute busStop direction s).2.requests
      = s.requests ++ [routesURL] := by
  have hreq := getRoutes_requests w s
  unfold calculateTimeTillNextBus
  generalize getRoutes w s = p at h hreq
  obtain ⟨e, s1⟩ := p
  cases e with
  | none => simp at h
  | some err =>
    have : err = m := by simpa using h
    subst this
    exact ⟨rfl, hreq⟩

/-- The departure stage never yields the text "Error: Route not found". -/
theorem departure_text_ne (w : Env) (route_id : String) (direction_id : Int)
    (place_code : String) (s : State) :
    (getTimeTillNextBusStop w route_id direction_id place_code s).1.1
      ≠ "Error: Route not found" := by
  rw [getTimeTillNextBusStop_eq]
  dsimp only
  cases fetched w (departuresURL route_id direction_id place_code)
      w.unmarshalRouteDepartures with
  | error e => exact empty_ne
  | ok rd =>
    dsimp only
    cases rd.Departures with
    | nil => exact empty_ne
    | cons first rest => exact minutes_ne _

/-- Away from the empty label the route resolver does what is asked of it: for a non-empty
requested label that some catalog entry carries, the result is not "Error: Route not found"
and the second request is the direction lookup for the `Route_id` of the first such entry
in catalog order. -/
theorem nonempty_label_is_looked_up (w : Env) (s : State) (catalog : List Route)
    (busRoute busStop direction : String)
    (hfetch : fetched w routesURL w.unmarshalRoutes = .ok catalog)
    (hne : busRoute ≠ "") (hex : ∃ r ∈ catalog, r.Route_label = busRoute) :
    (calculateTimeTillNextBus w busRoute busStop direction s).1 ≠ "Error: Route not found" ∧
    ∃ pre r post, catalog = pre ++ r :: post ∧ (∀ x ∈ pre, x.Route_label ≠ busRoute) ∧
      r.Route_label = busRoute ∧
      ∃ later, (calculateTimeTillNextBus w busRoute busStop direction s).2.requests
        = s.requests ++ [routesURL, directionsURL r.Route_id] ++ later := by
  · obtain ⟨pre, r, post, hcat, hpre, hr⟩ :=
      exists_first (fun x : Route => x.Route_label = busRoute) catalog hex
    have hsel : selectRoute busRoute catalog = r := by
      rw [hcat]; exact selectRoute_first busRoute pre post r hpre hr
    have hlabel : r.Route_label ≠ "" := by rw [hr]; exact hne
    have hcalc := calculate_of_selected w s catalog busRoute busStop direction r hfetch hsel hlabel
    rw [hcalc, getBusDirectionID_eq]
    generalize (match fetched w (directionsURL r.Route_id) w.unmarshalRouteDirections with
      | .error err => ((0 : Int), some err)
      | .ok routeDirections => scanDirections w direction routeDirections) = dres
    obtain ⟨did, derr⟩ := dres
    cases derr with
    | some err =>
      exact ⟨direction_prefix_ne err, pre, r, post, hcat, hpre, hr, [], by simp [State.request]⟩
    | none =>
      dsimp only
      rw [getBusStopPlaceCode_eq]
      generalize (match fetched w (stopsURL r.Route_id did) w.unmarshalPlaceCodes with
        | .error err => ("", some err)
        | .ok placeCodes => scanPlaceCodes busStop placeCodes) = sres
      obtain ⟨pc, serr⟩ := sres
      cases serr with
      | some err =>
        exact ⟨direction_prefix_ne err, pre, r, post, hcat, hpre, hr, [stopsURL r.Route_id did],
          by simp [State.request]⟩
      | none =>
        dsimp only
        have hne' := departure_text_ne w r.Route_id did pc
          ((({ s.request routesURL with routes := catalog } : State).request
            (directionsURL r.Route_id)).request (stopsURL r.Route_id did))
        have hreq : (getTimeTillNextBusStop w r.Route_id did pc
            ((({ s.request routesURL with routes := catalog } : State).request
              (directionsURL r.Route_id)).request (stopsURL r.Route_id did))).2.requests
            = s.requests ++ [routesURL, directionsURL r.Route_id]
              ++ [stopsURL r.Route_id did, departuresURL r.Route_id did pc] := by
          rw [getTimeTillNextBusStop_eq]; simp [State.request]
        generalize getTimeTillNextBusStop w r.Route_id did pc
            ((({ s.request routesURL with routes := catalog } : State).request
              (directionsURL r.Route_id)).request (stopsURL r.Route_id did)) = tres at hne' hreq
        obtain ⟨⟨txt, terr⟩, s4⟩ := tres
        cases terr with
        | some err =>
          exact ⟨departure_prefix_ne err, pre, r, post, hcat, hpre, hr, _, hreq⟩
        | none =>
          exact ⟨hne', pre, r, post, hcat, hpre, hr, _, hreq⟩

/-- C2. The claim holds of every catalog entry but one kind, and there the code misses it:
with the catalog holding the single entry ("7", 0, "") and the empty label requested, the
scan of lines 65-70 finds and selects that entry, yet the test
`selectedRoute.Route_label == ""` on line 73, written under the comment "Return error if
route not found", takes the selected entry for the zero value: the result is
"Error: Route not found" and no direction lookup for route "7" is made. -/
theorem empty_label_entry_reported_not_found :
    fetched (mockEnv [⟨"7", 0, ""⟩] [] [] [] 0 none) routesURL
        (mockEnv [⟨"7", 0, ""⟩] [] [] [] 0 none).unmarshalRoutes = .ok [⟨"7", 0, ""⟩] ∧
    (∃ r ∈ [(⟨"7", 0, ""⟩ : Route)], r.Route_label = "") ∧
    selectRoute "" [⟨"7", 0, ""⟩] = ⟨"7", 0, ""⟩ ∧
    (calculateTimeTillNextBus (mockEnv [⟨"7", 0, ""⟩] [] [] [] 0 none) "" "Target Field"
      "north" State.init).1 = "Error: Route not found" ∧
    (calculateTimeTillNextBus (mockEnv [⟨"7", 0, ""⟩] [] [] [] 0 none) "" "Target Field"
      "north" State.init).2.requests = [routesURL] :=
  ⟨rfl, by decide, rfl, rfl, rfl⟩

/-! ## Direction and stop lookup -/

/-- C3. When the direction list was fetched and decoded, `getBusDirectionID` returns, with a
nil error, the `Direction_id` of the first entry in list order whose lower-cased name
contains the input taken as it is, and its error is "Route direction not found" exactly when
no entry matches. -/
theorem getBusDirectionID_first_match (w : Env) (s : State) (route_id d : String)
    (l : List RouteDirection)
    (hfetch : fetched w (directionsURL route_id) w.unmarshalRouteDirections = .ok l) :
    (∀ pre e post, l = pre ++ e :: post → (∀ x ∈ pre, ¬ directionMatches w d x) →
      directionMatches w d e →
      (getBusDirectionID w route_id d s).1 = (e.Direction_id, none)) ∧
    ((getBusDirectionID w route_id d s).1.2 = some "Route direction not found" ↔
      ∀ x ∈ l, ¬ directionMatches w d x) := by
  rw [getBusDirectionID_eq, hfetch]
  dsimp only
  refine ⟨?_, ?_, ?_⟩
  · intro pre e post hl hpre he
    rw [hl]; exact scanDirections_first w d pre post e hpre he
  · intro herr x hx hm
    obtain ⟨pre, e, post, hl, hpre, he⟩ := exists_first (directionMatches w d) l ⟨x, hx, hm⟩
    rw [hl, scanDirections_first w d pre post e hpre he] at herr
    simp at herr
  · intro hno
    rw [scanDirections_none w d l hno]

/-- C3 at the example of the claim: "north" against the single entry (1, "Northbound")
returns 1. -/
theorem getBusDirectionID_first_match_witness :
    fetched (scenario 300 none) (directionsURL "901")
      (scenario 300 none).unmarshalRouteDirections = .ok [⟨1, "Northbound"⟩] ∧
    (getBusDirectionID (scenario 300 none) "901" "north" State.init).1 = (1, none) :=
  ⟨rfl, (getBusDirectionID_first_match (scenario 300 none) State.init "901" "north"
    [⟨1, "Northbound"⟩] rfl).1 [] ⟨1, "Northbound"⟩ [] rfl (by simp)
    ((Contains_iff _ _).mp rfl)⟩

/-- C4. When the stop list was fetched and decoded, `getBusStopPlaceCode` returns, with a
nil error, the `Place_code` of the first entry in list order whose description contains the
input as a case-sensitive substring, and its error is "Bus stop place code not found"
exactly when no description contains the input. -/
theorem getBusStopPlaceCode_first_match (w : Env) (s : State) (route_id : String)
    (direction_id : Int) (b : String) (l : List PlaceCode)
    (hfetch : fetched w (stopsURL route_id direction_id) w.unmarshalPlaceCodes = .ok l) :
    (∀ pre e post, l = pre ++ e :: post → (∀ x ∈ pre, ¬ stopMatches b x) →
      stopMatches b e →
      (getBusStopPlaceCode w route_id direction_id b s).1 = (e.Place_code, none)) ∧
    ((getBusStopPlaceCode w route_id direction_id b s).1.2
        = some "Bus stop place code not found" ↔
      ∀ x ∈ l, ¬ stopMatches b x) := by
  rw [getBusStopPlaceCode_eq, hfetch]
  dsimp only
  refine ⟨?_, ?_, ?_⟩
  · intro pre e post hl hpre he
    rw [hl]; exact scanPlaceCodes_first b pre post e hpre he
  · intro herr x hx hm
    obtain ⟨pre, e, post, hl, hpre, he⟩ := exists_first (stopMatches b) l ⟨x, hx, hm⟩
    rw [hl, scanPlaceCodes_first b pre post e hpre he] at herr
    simp at herr
  · intro hno
    rw [scanPlaceCodes_none b l hno]

/-- C4 at the examples of the claim: against ("TF123", "Target Field Station") the input
"Target Field" returns "TF123" and the input "target field" is not found. -/
theorem getBusStopPlaceCode_first_match_witness :
    fetched (scenario 300 none) (stopsURL "901" 1) (scenario 300 none).unmarshalPlaceCodes
      = .ok [⟨"TF123", "Target Field Station"⟩] ∧
    (getBusStopPlaceCode (scenario 300 none) "901" 1 "Target Field" State.init).1
      = ("TF123", none) ∧
    (getBusStopPlaceCode (scenario 300 none) "901" 1 "target field" State.init).1.2
      = some "Bus stop place code not found" :=
  ⟨rfl,
    (getBusStopPlaceCode_first_match (scenario 300 none) State.init "901" 1 "Target Field"
      [⟨"TF123", "Target Field Station"⟩] rfl).1 [] ⟨"TF123", "Target Field Station"⟩ [] rfl
      (by simp) ((Contains_iff _ _).mp rfl),
    (getBusStopPlaceCode_first_match (scenario 300 none) State.init "901" 1 "target field"
      [⟨"TF123", "Target Field Station"⟩] rfl).2.mpr (by
        intro x hx hm
        rw [List.mem_singleton.mp hx] at hm
        have := (Contains_iff _ _).mpr hm
        exact absurd this (by decide))⟩

/-! ## Minutes until the departure -/

theorem Sub_Unix_Now (w : Env) (t : Int) (h1 : -2 ^ 63 ≤ t + unixToInternal)
    (h2 : t + unixToInternal < 2 ^ 63) (h3 : minDuration ≤ t * 10 ^ 9 - w.now)
    (h4 : t * 10 ^ 9 - w.now ≤ maxDuration) :
    (Unix t).Sub (Now w) = t * 10 ^ 9 - w.now := by
  have hw : wrapInt64 (t + unixToInternal) = t + unixToInternal := by
    unfold wrapInt64
    norm_num at h1 h2 ⊢
    omega
  have hd : (wrapInt64 (t + unixToInternal) - (w.now / 10 ^ 9 + unixToInternal)) * 10 ^ 9
      + (0 - w.now % 10 ^ 9) = t * 10 ^ 9 - w.now := by
    rw [hw]
    have := Int.ediv_add_emod w.now (10 ^ 9)
    linarith
  unfold Time.Sub Unix Now
  dsimp only
  rw [hd, if_neg (not_lt.mpr h3), if_neg (not_lt.mpr h4)]

/-- C5, as amended. For a departure timestamp `t` (an int64 for which `time.Unix` does not
overflow) less than 2^18 minutes (about 182 days) from the clock reading in either
direction, `getTimeTillNextBusStop` returns no error and the text "q Minutes" where `q` is
the duration `t - now` in minutes truncated toward zero; for a departure in the past `q`
is negative or zero. -/
theorem minutes_truncated_within_half_year (w : Env) (s : State) (route_id : String)
    (direction_id : Int) (place_code : String) (t : Int) (rest : List Departure)
    (hfetch : fetched w (departuresURL route_id direction_id place_code)
      w.unmarshalRouteDepartures = .ok ⟨⟨t⟩ :: rest⟩)
    (hlo : -2 ^ 63 ≤ t) (hhi : t + unixToInternal < 2 ^ 63)
    (hnear : |t * 10 ^ 9 - w.now| < 2 ^ 18 * Minute) :
    (getTimeTillNextBusStop w route_id direction_id place_code s).1
      = (fmtD (Int.tdiv (t * 10 ^ 9 - w.now) Minute) ++ " Minutes", none) ∧
    (t * 10 ^ 9 ≤ w.now → Int.tdiv (t * 10 ^ 9 - w.now) Minute ≤ 0) := by
  have hM : Minute = 60000000000 := by norm_num [Minute]
  have hU : unixToInternal = 62135596800 := rfl
  have habs := abs_lt.mp hnear
  have hsub : (Unix t).Sub (Now w) = t * 10 ^ 9 - w.now := by
    apply Sub_Unix_Now
    · rw [hU]; omega
    · exact hhi
    · rw [hM] at habs; norm_num [minDuration] at habs ⊢; omega
    · rw [hM] at habs; norm_num [maxDuration] at habs ⊢; omega
  constructor
  · rw [getTimeTillNextBusStop_eq, hfetch]
    dsimp only
    rw [hsub, intOfFloat_Minutes hnear]
  · intro hpast
    have h0 : 0 ≤ -(t * 10 ^ 9 - w.now) := by omega
    have := Int.tdiv_nonneg h0 (by rw [hM]; norm_num : (0:ℤ) ≤ Minute)
    rw [Int.neg_tdiv] at this
    omega

/-- C5 at the examples of the claim: departures 125, 90 and 59 seconds ahead give
"2 Minutes", "1 Minutes" and "0 Minutes", a departure 90 seconds in the past gives
"-1 Minutes". -/
theorem minutes_truncated_within_half_year_witness :
    fetched (scenario 125 none) (departuresURL "901" 1 "TF123")
      (scenario 125 none).unmarshalRouteDepartures = .ok ⟨[⟨1700000000 + 125⟩]⟩ ∧
    |(1700000000 + 125) * 10 ^ 9 - (scenario 125 none).now| < 2 ^ 18 * Minute ∧
    (getTimeTillNextBusStop (scenario 125 none) "901" 1 "TF123" State.init).1
      = ("2 Minutes", none) ∧
    (getTimeTillNextBusStop (scenario 90 none) "901" 1 "TF123" State.init).1
      = ("1 Minutes", none) ∧
    (getTimeTillNextBusStop (scenario 59 none) "901" 1 "TF123" State.init).1
      = ("0 Minutes", none) ∧
    (getTimeTillNextBusStop (scenario (-90) none) "901" 1 "TF123" State.init).1
      = ("-1 Minutes", none) :=
  ⟨rfl, by decide,
    (minutes_truncated_within_half_year (scenario 125 none) State.init "901" 1 "TF123"
      (1700000000 + 125) [] rfl (by decide) (by decide) (by decide)).1.trans (by decide),
    (minutes_truncated_within_half_year (scenario 90 none) State.init "901" 1 "TF123"
      (1700000000 + 90) [] rfl (by decide) (by decide) (by decide)).1.trans (by decide),
    (minutes_truncated_within_half_year (scenario 59 none) State.init "901" 1 "TF123"
      (1700000000 + 59) [] rfl (by decide) (by decide) (by decide)).1.trans (by decide),
    (minutes_truncated_within_half_year (scenario (-90) none) State.init "901" 1 "TF123"
      (1700000000 + -90) [] rfl (by decide) (by decide) (by decide)).1.trans (by decide)⟩

/-- C5 as stated fails far from the clock reading: for a departure 262144 minutes and
59.999999999 seconds ahead the duration truncated to minutes is 262144, yet the float64 sum
in `Duration.Minutes` rounds up and the text is "262145 Minutes". -/
theorem minutes_round_up_far_ahead :
    fetched farScenario (departuresURL "901" 1 "TF123") farScenario.unmarshalRouteDepartures
      = .ok ⟨[⟨1715728700⟩]⟩ ∧
    Int.tdiv (1715728700 * 10 ^ 9 - farScenario.now) Minute = 262144 ∧
    (getTimeTillNextBusStop farScenario "901" 1 "TF123" State.init).1
      = ("262145 Minutes", none) := by
  refine ⟨rfl, by decide, ?_⟩
  have hf : fetched farScenario (departuresURL "901" 1 "TF123")
      farScenario.unmarshalRouteDepartures = .ok ⟨[⟨1715728700⟩]⟩ := rfl
  have hs : (Unix 1715728700).Sub (Now farScenario) = 15728699999999999 := by decide
  rw [getTimeTillNextBusStop_eq, hf]
  dsimp only
  rw [hs, intOfFloat_Minutes_roundsUp]
  rfl

/-- C6. When the departure board was fetched and decoded and its list is empty,
`getTimeTillNextBusStop` returns the empty text with a nil error, and a run of
`calculateTimeTillNextBus` whose earlier stages resolve to this board returns the empty
text, with no error prefix. -/
theorem empty_departures_give_empty_text (w : Env) (s : State) (route_id : String)
    (direction_id : Int) (place_code : String)
    (hfetch : fetched w (departuresURL route_id direction_id place_code)
      w.unmarshalRouteDepartures = .ok ⟨[]⟩) :
    (getTimeTillNextBusStop w route_id direction_id place_code s).1 = ("", none) ∧
    ∀ (catalog : List Route) (r : Route) (busRoute busStop direction : String)
      (s0 s1 s2 : State),
      fetched w routesURL w.unmarshalRoutes = .ok catalog →
      selectRoute busRoute catalog = r → r.Route_label ≠ "" → r.Route_id = route_id →
      (getBusDirectionID w route_id direction s1).1 = (direction_id, none) →
      (getBusStopPlaceCode w route_id direction_id busStop s2).1 = (place_code, none) →
      (calculateTimeTillNextBus w busRoute busStop direction s0).1 = "" := by
  constructor
  · rw [getTimeTillNextBusStop_eq, hfetch]
  · intro catalog r busRoute busStop direction s0 s1 s2 hf hsel hlab hid hd hp
    rw [getBusDirectionID_eq] at hd
    rw [getBusStopPlaceCode_eq] at hp
    dsimp only at hd hp
    rw [calculate_of_selected w s0 catalog busRoute busStop direction r hf hsel hlab, hid,
      getBusDirectionID_eq, hd]
    dsimp only
    rw [getBusStopPlaceCode_eq, hp]
    dsimp only
    rw [getTimeTillNextBusStop_eq, hfetch]

/-- C6 in the end-to-end scenario with an empty departure list. -/
theorem empty_departures_give_empty_text_witness :
    fetched (mockEnv blueLine blueLineDirections blueLineStops [] 0 none)
      (departuresURL "901" 1 "TF123")
      (mockEnv blueLine blueLineDirections blueLineStops [] 0 none).unmarshalRouteDepartures
      = .ok ⟨[]⟩ ∧
    (getTimeTillNextBusStop (mockEnv blueLine blueLineDirections blueLineStops [] 0 none)
      "901" 1 "TF123" State.init).1 = ("", none) ∧
    (calculateTimeTillNextBus (mockEnv blueLine blueLineDirections blueLineStops [] 0 none)
      "METRO Blue Line" "Target Field" "north" State.init).1 = "" :=
  have h := empty_departures_give_empty_text
    (mockEnv blueLine blueLineDirections blueLineStops [] 0 none) State.init "901" 1 "TF123" rfl
  ⟨rfl, h.1,
    h.2 blueLine ⟨"901", 0, "METRO Blue Line"⟩ "METRO Blue Line" "Target Field" "north"
      State.init State.init State.init rfl rfl (by decide) rfl rfl rfl⟩

/-! ## Error propagation -/

/-- C7. Whichever stage is the first to fail with message `m`, the result is the fixed prefix
of that stage followed by `m` unchanged, and the requests made are those up to the failing
stage only: "Error retrieving routes: " for the catalog fetch, "Error getting bus direction
ID: " for the direction lookup and for the stop lookup, "Error getting time till next bus
stop: " for the departure fetch. -/
theorem first_failure_is_reported (w : Env) (s : State) (busRoute busStop direction m : String) :
    ((getRoutes w s).1 = some m →
      (calculateTimeTillNextBus w busRoute busStop direction s).1
        = "Error retrieving routes: " ++ m ∧
      (calculateTimeTillNextBus w busRoute busStop direction s).2.requests
        = s.requests ++ [routesURL]) ∧
    (∀ (catalog : List Route) (r : Route),
      fetched w routesURL w.unmarshalRoutes = .ok catalog →
      selectRoute busRoute catalog = r → r.Route_label ≠ "" →
      (∀ (did : Int) (s1 : State),
        (getBusDirectionID w r.Route_id direction s1).1 = (did, some m) →
        (calculateTimeTillNextBus w busRoute busStop direction s).1
          = "Error getting bus direction ID: " ++ m ∧
        (calculateTimeTillNextBus w busRoute busStop direction s).2.requests
          = s.requests ++ [routesURL, directionsURL r.Route_id]) ∧
      (∀ (did : Int) (pc : String) (s1 s2 : State),
        (getBusDirectionID w r.Route_id direction s1).1 = (did, none) →
        (getBusStopPlaceCode w r.Route_id did busStop s2).1 = (pc, some m) →
        (calculateTimeTillNextBus w busRoute busStop direction s).1
          = "Error getting bus direction ID: " ++ m ∧
        (calculateTimeTillNextBus w busRoute busStop direction s).2.requests
          = s.requests ++ [routesURL, directionsURL r.Route_id, stopsURL r.Route_id did]) ∧
      (∀ (did : Int) (pc txt : String) (s1 s2 s3 : State),
        (getBusDirectionID w r.Route_id direction s1).1 = (did, none) →
        (getBusStopPlaceCode w r.Route_id did busStop s2).1 = (pc, none) →
        (getTimeTillNextBusStop w r.Route_id did pc s3).1 = (txt, some m) →
        (calculateTimeTillNextBus w busRoute busStop direction s).1
          = "Error getting time till next bus stop: " ++ m ∧
        (calculateTimeTillNextBus w busRoute busStop direction s).2.requests
          = s.requests ++ [routesURL, directionsURL r.Route_id, stopsURL r.Route_id did,
              departuresURL r.Route_id did pc])) := by
  constructor
  · intro h
    exact calculate_of_routes_error w s busRoute busStop direction m h
  · intro catalog r hf hsel hlab
    have hcalc := calculate_of_selected w s catalog busRoute busStop direction r hf hsel hlab
    refine ⟨?_, ?_, ?_⟩
    · intro did s1 hd
      rw [getBusDirectionID_eq] at hd
      dsimp only at hd
      rw [hcalc, getBusDirectionID_eq, hd]
      exact ⟨rfl, by simp [State.request]⟩
    · intro did pc s1 s2 hd hp
      rw [getBusDirectionID_eq] at hd
      rw [getBusStopPlaceCode_eq] at hp
      dsimp only at hd hp
      rw [hcalc, getBusDirectionID_eq, hd]
      dsimp only
      rw [getBusStopPlaceCode_eq, hp]
      exact ⟨rfl, by simp [State.request]⟩
    · intro did pc txt s1 s2 s3 hd hp ht
      rw [getBusDirectionID_eq] at hd
      rw [getBusStopPlaceCode_eq] at hp
      rw [getTimeTillNextBusStop_eq] at ht
      dsimp only at hd hp ht
      rw [hcalc, getBusDirectionID_eq, hd]
      dsimp only
      rw [getBusStopPlaceCode_eq, hp]
      dsimp only
      rw [getTimeTillNextBusStop_eq, ht]
      exact ⟨rfl, by simp [State.request]⟩

/-- C7 in the end-to-end scenario with the connection refused at each stage in turn, and
with a direction that no entry matches. -/
theorem first_failure_is_reported_witness :
    (getRoutes (scenario 300 (some routesURL)) State.init).1 = some "connection refused" ∧
    ((calculateTimeTillNextBus (scenario 300 (some routesURL)) "METRO Blue Line"
      "Target Field" "north" State.init).1 = "Error retrieving routes: connection refused" ∧
    (calculateTimeTillNextBus (scenario 300 (some routesURL)) "METRO Blue Line"
      "Target Field" "north" State.init).2.requests = [routesURL]) ∧
    ((calculateTimeTillNextBus (scenario 300 (some (directionsURL "901"))) "METRO Blue Line"
      "Target Field" "north" State.init).1
      = "Error getting bus direction ID: connection refused" ∧
    (calculateTimeTillNextBus (scenario 300 (some (directionsURL "901"))) "METRO Blue Line"
      "Target Field" "north" State.init).2.requests = [routesURL, directionsURL "901"]) ∧
    ((calculateTimeTillNextBus (scenario 300 none) "METRO Blue Line" "Target Field" "east"
      State.init).1 = "Error getting bus direction ID: Route direction not found" ∧
    (calculateTimeTillNextBus (scenario 300 none) "METRO Blue Line" "Target Field" "east"
      State.init).2.requests = [routesURL, directionsURL "901"]) ∧
    ((calculateTimeTillNextBus (scenario 300 (some (stopsURL "901" 1))) "METRO Blue Line"
      "Target Field" "north" State.init).1
      = "Error getting bus direction ID: connection refused" ∧
    (calculateTimeTillNextBus (scenario 300 (some (stopsURL "901" 1))) "METRO Blue Line"
      "Target Field" "north" State.init).2.requests
      = [routesURL, directionsURL "901", stopsURL "901" 1]) ∧
    ((calculateTimeTillNextBus (scenario 300 (some (departuresURL "901" 1 "TF123")))
      "METRO Blue Line" "Target Field" "north" State.init).1
      = "Error getting time till next bus stop: connection refused" ∧
    (calculateTimeTillNextBus (scenario 300 (some (departuresURL "901" 1 "TF123")))
      "METRO Blue Line" "Target Field" "north" State.init).2.requests
      = [routesURL, directionsURL "901", stopsURL "901" 1, departuresURL "901" 1 "TF123"]) :=
  ⟨rfl,
    (first_failure_is_reported (scenario 300 (some routesURL)) State.init
      "METRO Blue Line" "Target Field" "north" "connection refused").1 rfl,
    ((first_failure_is_reported (scenario 300 (some (directionsURL "901"))) State.init
      "METRO Blue Line" "Target Field" "north" "connection refused").2 blueLine
      ⟨"901", 0, "METRO Blue Line"⟩ rfl rfl (by decide)).1 0 State.init rfl,
    ((first_failure_is_reported (scenario 300 none) State.init
      "METRO Blue Line" "Target Field" "east" "Route direction not found").2 blueLine
      ⟨"901", 0, "METRO Blue Line"⟩ rfl rfl (by decide)).1 0 State.init rfl,
    ((first_failure_is_reported (scenario 300 (some (stopsURL "901" 1))) State.init
      "METRO Blue Line" "Target Field" "north" "connection refused").2 blueLine
      ⟨"901", 0, "METRO Blue Line"⟩ rfl rfl (by decide)).2.1 1 "" State.init State.init
      rfl rfl,
    ((first_failure_is_reported (scenario 300 (some (departuresURL "901" 1 "TF123")))
      State.init "METRO Blue Line" "Target Field" "north" "connection refused").2 blueLine
      ⟨"901", 0, "METRO Blue Line"⟩ rfl rfl (by decide)).2.2 1 "TF123" "" State.init
      State.init State.init rfl rfl rfl⟩

/-! ## End to end -/

/-- C8. With a catalog whose first entry labelled "METRO Blue Line" has id "901", a
direction list for route 901 whose first match for "north" is (1, "Northbound"), a stop list
for (901, 1) whose first match for "Target Field" is ("TF123", "Target Field Station") and a
departure list for (901, 1, TF123) whose single entry is exactly 300 seconds after the clock
reading, the call with ("METRO Blue Line", "Target Field", "north") returns "5 Minutes"
after the four requests: the catalog, directions of 901, stops of (901, 1) and departures
of (901, 1, TF123). -/
theorem blue_line_five_minutes (w : Env) (s : State) (agency : Int)
    (preR postR : List Route) (preD postD : List RouteDirection) (preS postS : List PlaceCode)
    (t : Int)
    (hR : fetched w routesURL w.unmarshalRoutes
      = .ok (preR ++ ⟨"901", agency, "METRO Blue Line"⟩ :: postR))
    (hpreR : ∀ x ∈ preR, x.Route_label ≠ "METRO Blue Line")
    (hD : fetched w (directionsURL "901") w.unmarshalRouteDirections
      = .ok (preD ++ ⟨1, "Northbound"⟩ :: postD))
    (hpreD : ∀ x ∈ preD, ¬ directionMatches w "north" x)
    (hS : fetched w (stopsURL "901" 1) w.unmarshalPlaceCodes
      = .ok (preS ++ ⟨"TF123", "Target Field Station"⟩ :: postS))
    (hpreS : ∀ x ∈ preS, ¬ stopMatches "Target Field" x)
    (hT : fetched w (departuresURL "901" 1 "TF123") w.unmarshalRouteDepartures = .ok ⟨[⟨t⟩]⟩)
    (hlo : -2 ^ 63 ≤ t) (hhi : t + unixToInternal < 2 ^ 63)
    (h300 : t * 10 ^ 9 - w.now = 300 * 10 ^ 9) :
    (calculateTimeTillNextBus w "METRO Blue Line" "Target Field" "north" s).1 = "5 Minutes" ∧
    (calculateTimeTillNextBus w "METRO Blue Line" "Target Field" "north" s).2.requests
      = s.requests ++ [routesURL, directionsURL "901", stopsURL "901" 1,
          departuresURL "901" 1 "TF123"] := by
  have hsel := selectRoute_first "METRO Blue Line" preR postR
    ⟨"901", agency, "METRO Blue Line"⟩ hpreR rfl
  have hcalc := calculate_of_selected w s _ "METRO Blue Line" "Target Field" "north"
    ⟨"901", agency, "METRO Blue Line"⟩ hR hsel (by simp)
  have hN : directionMatches w "north" ⟨1, "Northbound"⟩ := (Contains_iff _ _).mp rfl
  have hTF : stopMatches "Target Field" ⟨"TF123", "Target Field Station"⟩ :=
    (Contains_iff _ _).mp rfl
  have hnear : |t * 10 ^ 9 - w.now| < 2 ^ 18 * Minute := by rw [h300]; decide
  have hU : unixToInternal = 62135596800 := rfl
  have hsub : (Unix t).Sub (Now w) = t * 10 ^ 9 - w.now := by
    apply Sub_Unix_Now
    · rw [hU]; omega
    · exact hhi
    · rw [h300]; decide
    · rw [h300]; decide
  rw [hcalc, getBusDirectionID_eq]
  dsimp only
  rw [hD]
  dsimp only
  rw [scanDirections_first w "north" preD postD ⟨1, "Northbound"⟩ hpreD hN]
  dsimp only
  rw [getBusStopPlaceCode_eq, hS]
  dsimp only
  rw [scanPlaceCodes_first "Target Field" preS postS ⟨"TF123", "Target Field Station"⟩ hpreS hTF]
  dsimp only
  rw [getTimeTillNextBusStop_eq, hT]
  dsimp only
  rw [hsub, intOfFloat_Minutes hnear, h300]
  exact ⟨by decide, by simp [State.request]⟩

/-- C8 in the mocked scenario: single-entry catalog, direction list, stop list and a single
departure 300 seconds after the clock reading. -/
theorem blue_line_five_minutes_witness :
    fetched (scenario 300 none) routesURL (scenario 300 none).unmarshalRoutes
      = .ok [⟨"901", 0, "METRO Blue Line"⟩] ∧
    fetched (scenario 300 none) (directionsURL "901")
      (scenario 300 none).unmarshalRouteDirections = .ok [⟨1, "Northbound"⟩] ∧
    fetched (scenario 300 none) (stopsURL "901" 1) (scenario 300 none).unmarshalPlaceCodes
      = .ok [⟨"TF123", "Target Field Station"⟩] ∧
    fetched (scenario 300 none) (departuresURL "901" 1 "TF123")
      (scenario 300 none).unmarshalRouteDepartures = .ok ⟨[⟨1700000000 + 300⟩]⟩ ∧
    (1700000000 + 300) * 10 ^ 9 - (scenario 300 none).now = 300 * 10 ^ 9 ∧
    (calculateTimeTillNextBus (scenario 300 none) "METRO Blue Line" "Target Field" "north"
      State.init).1 = "5 Minutes" ∧
    (calculateTimeTillNextBus (scenario 300 none) "METRO Blue Line" "Target Field" "north"
      State.init).2.requests
      = [routesURL, directionsURL "901", stopsURL "901" 1, departuresURL "901" 1 "TF123"] :=
  have h := blue_line_five_minutes (scenario 300 none) State.init 0 [] [] [] [] [] []
    (1700000000 + 300) rfl (by simp) rfl (by simp) rfl (by simp) rfl (by decide) (by decide)
    (by decide)
  ⟨rfl, rfl, rfl, rfl, by decide, h.1, h.2⟩

/-! ## Letter case in the direction lookup -/

theorem scanDirections_congr (w : Env) (d : String) (l1 l2 : List RouteDirection)
    (h : l1.map (fun x => (x.Direction_id, ToLower w.caseTable x.Direction_name))
      = l2.map (fun x => (x.Direction_id, ToLower w.caseTable x.Direction_name))) :
    scanDirections w d l1 = scanDirections w d l2 := by
  induction l1 generalizing l2 with
  | nil =>
    cases l2 with
    | nil => rfl
    | cons y ys => simp at h
  | cons x xs ih =>
    cases l2 with
    | nil => simp at h
    | cons y ys =>
      simp only [List.map_cons, List.cons.injEq, Prod.mk.injEq] at h
      obtain ⟨⟨hid, hname⟩, htail⟩ := h
      simp only [scanDirections, hid, hname]
      rw [ih ys htail]

/-- C9 as stated fails: "North" and "north" differ only in letter case, yet against the
single entry (1, "Northbound") the input "north" returns 1 and the input "North" is not
found. -/
theorem direction_input_case_matters :
    fetched (scenario 300 none) (directionsURL "901")
      (scenario 300 none).unmarshalRouteDirections = .ok [⟨1, "Northbound"⟩] ∧
    ToLower (scenario 300 none).caseTable "North"
      = ToLower (scenario 300 none).caseTable "north" ∧
    (getBusDirectionID (scenario 300 none) "901" "north" State.init).1 = (1, none) ∧
    (getBusDirectionID (scenario 300 none) "901" "North" State.init).1
      = (0, some "Route direction not found") :=
  ⟨rfl, by decide, rfl, rfl⟩

/-- C9, as amended. The direction lookup ignores letter case on the side of the candidate
names only: for every input, two decoded direction lists with the same ids, whose names are
equal after lower-casing, give the same result. The input itself is compared as it is. -/
theorem direction_lookup_ignores_candidate_case (w : Env) (s : State) (d rid1 rid2 : String)
    (l1 l2 : List RouteDirection)
    (h1 : fetched w (directionsURL rid1) w.unmarshalRouteDirections = .ok l1)
    (h2 : fetched w (directionsURL rid2) w.unmarshalRouteDirections = .ok l2)
    (hcase : l1.map (fun x => (x.Direction_id, ToLower w.caseTable x.Direction_name))
      = l2.map (fun x => (x.Direction_id, ToLower w.caseTable x.Direction_name))) :
    (getBusDirectionID w rid1 d s).1 = (getBusDirectionID w rid2 d s).1 := by
  rw [getBusDirectionID_eq, getBusDirectionID_eq, h1, h2]
  exact scanDirections_congr w d l1 l2 hcase

/-- C9, as amended, on two lists differing in case: "Northbound" and "NORTHBOUND" give the
same result for the input "north". -/
theorem direction_lookup_ignores_candidate_case_witness :
    fetched caseEnv (directionsURL "901") caseEnv.unmarshalRouteDirections
      = .ok [⟨1, "Northbound"⟩] ∧
    fetched caseEnv (directionsURL "902") caseEnv.unmarshalRouteDirections
      = .ok [⟨1, "NORTHBOUND"⟩] ∧
    (getBusDirectionID caseEnv "901" "north" State.init).1
      = (getBusDirectionID caseEnv "902" "north" State.init).1 ∧
    (getBusDirectionID caseEnv "902" "north" State.init).1 = (1, none) :=
  ⟨rfl, rfl,
    direction_lookup_ignores_candidate_case caseEnv State.init "north" "901" "902"
      [⟨1, "Northbound"⟩] [⟨1, "NORTHBOUND"⟩] rfl rfl (by decide),
    rfl⟩

/-! ## Command line -/

/-- Every run of `calculateTimeTillNextBus` starts with the request for the catalog. -/
theorem calculate_requests_catalog (w : Env) (s : State) (busRoute busStop direction : String) :
    ∃ later, (calculateTimeTillNextBus w busRoute busStop direction s).2.requests
      = s.requests ++ routesURL :: later := by
  cases hf : fetched w routesURL w.unmarshalRoutes with
  | error e =>
    have he : (getRoutes w s).1 = some e := by rw [getRoutes_fst, hf]
    exact ⟨[], (calculate_of_routes_error w s busRoute busStop direction e he).2⟩
  | ok catalog =>
    by_cases hl : (selectRoute busRoute catalog).Route_label = ""
    · refine ⟨[], ?_⟩
      unfold calculateTimeTillNextBus
      rw [getRoutes_ok w s catalog hf]
      dsimp only
      rw [if_pos hl]
      rfl
    · rw [calculate_of_selected w s catalog busRoute busStop direction _ hf rfl hl,
        getBusDirectionID_eq]
      generalize (match fetched w (directionsURL (selectRoute busRoute catalog).Route_id)
          w.unmarshalRouteDirections with
        | .error err => ((0 : Int), some err)
        | .ok routeDirections => scanDirections w direction routeDirections) = dres
      obtain ⟨did, derr⟩ := dres
      cases derr with
      | some err => exact ⟨_, by simp [State.request]; rfl⟩
      | none =>
        dsimp only
        rw [getBusStopPlaceCode_eq]
        generalize (match fetched w (stopsURL (selectRoute busRoute catalog).Route_id did)
            w.unmarshalPlaceCodes with
          | .error err => ("", some err)
          | .ok placeCodes => scanPlaceCodes busStop placeCodes) = sres
        obtain ⟨pc, serr⟩ := sres
        cases serr with
        | some err => exact ⟨_, by simp [State.request]; rfl⟩
        | none =>
          dsimp only
          rw [getTimeTillNextBusStop_eq]
          generalize (match fetched w
              (departuresURL (selectRoute busRoute catalog).Route_id did pc)
              w.unmarshalRouteDepartures with
            | .error err => ("", some err)
            | .ok routeDepartures =>
              match routeDepartures.Departures with
              | [] => ("", none)
              | first :: _ =>
                (fmtD (intOfFloat (Minutes ((Unix first.Departure_time).Sub (Now w))))
                  ++ " Minutes", none)) = tres
          obtain ⟨txt, terr⟩ := tres
          cases terr with
          | some err => exact ⟨_, by simp [State.request]; rfl⟩
          | none => exact ⟨_, by simp [State.request]; rfl⟩

/-- C10. For an argument vector whose length is not 4 (program name and three arguments),
`parseArgs` returns the usage message, and `main` prints exactly that message and makes no
request, whereas every run of `calculateTimeTillNextBus` makes one; for three arguments
after the program name `parseArgs` returns them in the order (BusRoute, BusStop, Direction)
with an empty message. -/
theorem wrong_argument_count_prints_usage (w : Env) (s : State) (args : List String)
    (hlen : args.length ≠ 4) :
    parseArgs args = ("", "", "", usage) ∧
    main w args s = { s with stdout := s.stdout ++ usage ++ "\n" } ∧
    (main w args s).requests = s.requests ∧
    (∀ (s0 : State) (busRoute busStop direction : String),
      (calculateTimeTillNextBus w busRoute busStop direction s0).2.requests ≠ s0.requests) ∧
    (∀ a0 a1 a2 a3 : String, parseArgs [a0, a1, a2, a3] = (a1, a2, a3, "")) := by
  have hp : parseArgs args = ("", "", "", usage) := by
    unfold parseArgs
    rw [if_pos hlen]
    rfl
  have hu : usage ≠ "" := by decide
  have hm : main w args s = { s with stdout := s.stdout ++ usage ++ "\n" } := by
    unfold main
    rw [hp]
    dsimp only
    rw [if_pos hu]
    rfl
  refine ⟨hp, hm, by rw [hm], ?_, ?_⟩
  · intro s0 busRoute busStop direction h
    obtain ⟨later, hl⟩ := calculate_requests_catalog w s0 busRoute busStop direction
    rw [h] at hl
    have := congrArg List.length hl
    simp at this
  · intro a0 a1 a2 a3
    rfl

/-- C10 with too few and with too many arguments. -/
theorem wrong_argument_count_prints_usage_witness :
    ["nextBus"].length ≠ 4 ∧
    (main (scenario 300 none) ["nextBus"] State.init).stdout
      = "Not enough arguments. Use: go run nextBus.go [BusRoute] [BusStop] [Direction]\n" ∧
    (main (scenario 300 none) ["nextBus"] State.init).requests = [] ∧
    (main (scenario 300 none) ["nextBus", "METRO Blue Line", "Target Field", "north", "now"]
      State.init).stdout
      = "Not enough arguments. Use: go run nextBus.go [BusRoute] [BusStop] [Direction]\n" ∧
    (main (scenario 300 none) ["nextBus", "METRO Blue Line", "Target Field", "north", "now"]
      State.init).requests = [] :=
  have h1 := wrong_argument_count_prints_usage (scenario 300 none) State.init ["nextBus"]
    (by decide)
  have h2 := wrong_argument_count_prints_usage (scenario 300 none) State.init
    ["nextBus", "METRO Blue Line", "Target Field", "north", "now"] (by decide)
  ⟨by decide, by rw [h1.2.1]; rfl, h1.2.2.1, by rw [h2.2.1]; rfl, h2.2.2.1⟩

end NextBus
